import Mathlib

/-!
Verification of the TrainingCur portfolio valuation and quote-caching engine.

Shallow embedding of the core computations of the repository:
- `backend/services/stock_service.py` (quote fetching and caching),
- `backend/routes/page_routes.py` (transaction aggregation, asset valuation,
  annualization, portfolio rollup, charting display symbol),
- `backend/routes/api.py` (transaction creation and validation).

Money and timestamps are modelled as rationals; Python `round(x, 2)` is
modelled as exact round-half-to-even at two decimal places; MongoDB
documents are modelled as structures whose optional fields are `Option`.
-/

namespace TrainingCur

/-- Round-half-to-even of a rational to an integer, matching Python `round`. -/
def rhe (q : ℚ) : ℤ :=
  let f := ⌊q⌋
  let r := q - f
  if r < 1/2 then f
  else if 1/2 < r then f + 1
  else if f % 2 = 0 then f else f + 1

/-- Python `round(x, 2)`: round to two decimal places, half to even. -/
def round2 (q : ℚ) : ℚ := (rhe (q * 100) : ℚ) / 100

/-! ## Transaction documents (MongoDB `transactions` collection) -/

/-- Value stored in a transaction document's `purchase_date` field, as the
Python code in `_compute_profit_periods` discriminates it: absent (`None`),
a `datetime.datetime` (its `.date()` is taken), a `datetime.date`, a string
(either parseable as `%Y-%m-%d` or not), or some other runtime type.
Calendar dates are modelled by their ordinal day number. -/
inductive PyDate where
  | pyNone
  | pyDatetime (d : ℤ)
  | pyDate (d : ℤ)
  | pyStr (parsed : Option ℤ)
  | pyOther
deriving DecidableEq, Repr

/-- The calendar date the Python loop extracts from a `purchase_date` value,
`none` when the value is skipped (absent, unparseable string, other type). -/
def dateOf : PyDate → Option ℤ
  | .pyDatetime d => some d
  | .pyDate d => some d
  | .pyStr (some d) => some d
  | _ => none

/-- A document of the `transactions` collection as the valuation code reads
it: `p.get("quantity", 0)` etc. default missing numerics to 0, while
`p.get("debit")` is `None`-checked, hence `Option`. -/
structure TransactionDoc where
  transaction_type : String
  price_per_unit : ℚ
  quantity : ℚ
  fees : ℚ
  debit : Option ℚ
  credit : ℚ
  purchase_date : PyDate
deriving DecidableEq, Repr

/-- `_purchase_total_cost` (page_routes.py:93-98): the stored debit when it
is present and positive, else `price_per_unit * quantity`. -/
def purchase_total_cost (p : TransactionDoc) : ℚ :=
  match p.debit with
  | some d => if 0 < d then d else p.price_per_unit * p.quantity
  | none => p.price_per_unit * p.quantity

/-- The purchase documents the dashboard queries fetch: the transactions
whose `transaction_type` is `"purchase"` (page_routes.py:106-111). -/
def purchase_docs (txns : List TransactionDoc) : List TransactionDoc :=
  txns.filter (fun t => t.transaction_type == "purchase")

/-- `total_units = sum(float(p.get("quantity", 0)) for p in purchases)`. -/
def total_units_of (txns : List TransactionDoc) : ℚ :=
  ((purchase_docs txns).map (fun p => p.quantity)).sum

/-- `total_paid = sum(_purchase_total_cost(p) for p in purchases)`. -/
def total_paid_of (txns : List TransactionDoc) : ℚ :=
  ((purchase_docs txns).map purchase_total_cost).sum

/-- `total_value = current_price * total_units` (page_routes.py:115). -/
def total_value_of (txns : List TransactionDoc) (current_price : ℚ) : ℚ :=
  current_price * total_units_of txns

/-- `total_profit = total_value - total_paid` (page_routes.py:116). -/
def total_profit_of (txns : List TransactionDoc) (current_price : ℚ) : ℚ :=
  total_value_of txns current_price - total_paid_of txns

/-! ## Annualization (`_compute_profit_periods`, page_routes.py:24-54) -/

/-- The dates collected by the loop of `_compute_profit_periods`: usable
`purchase_date` values in order, unusable ones silently skipped. -/
def collectDates (ps : List TransactionDoc) : List ℤ :=
  ps.filterMap (fun p => dateOf p.purchase_date)

/-- `_compute_profit_periods(purchases, total_profit)` with the current day
passed explicitly in place of `datetime.date.today()`. Returns `none` for
the Python `(None, None)` and `some (pm, py)` otherwise. -/
def compute_profit_periods (ps : List TransactionDoc) (total_profit : ℚ)
    (today : ℤ) : Option (ℚ × ℚ) :=
  match collectDates ps with
  | [] => none
  | d :: ds =>
    let first_date := ds.foldl min d
    let holding_days := today - first_date
    if holding_days < 1 then none
    else
      let profit_per_month := round2 (total_profit / ((holding_days : ℚ) / (3044/100)))
      some (profit_per_month, round2 (profit_per_month * 12))

/-! ## Per-asset dashboard metrics (`_asset_dict_for_dashboard2`) -/

/-- The numeric fields of the dict built by `_asset_dict_for_dashboard2`
(page_routes.py:101-143): display values are rounded to 2 decimals,
`is_gain` compares the unrounded profit. -/
structure AssetMetrics where
  total_units : ℚ
  total_paid : ℚ
  current_price : ℚ
  total_value : ℚ
  total_profit : ℚ
  is_gain : Bool
  profit_per_month : Option ℚ
  profit_per_year : Option ℚ
deriving DecidableEq, Repr

/-- `_asset_dict_for_dashboard2`, numeric core: aggregates the asset's
purchase transactions and combines them with the quoted price. -/
def asset_dict_for_dashboard2 (txns : List TransactionDoc) (current_price : ℚ)
    (today : ℤ) : AssetMetrics :=
  let tp := total_profit_of txns current_price
  let pp := compute_profit_periods (purchase_docs txns) tp today
  { total_units := total_units_of txns
    total_paid := round2 (total_paid_of txns)
    current_price := current_price
    total_value := round2 (total_value_of txns current_price)
    total_profit := round2 tp
    is_gain := decide (0 ≤ tp)
    profit_per_month := pp.map (fun x => x.1)
    profit_per_year := pp.map (fun x => x.2) }

/-- Spec-side definition (spec §3/§4.2, no counterpart in the dashboard
code): `total_dividends = Σ credit` over the dividend transactions. -/
def spec_total_dividends (txns : List TransactionDoc) : ℚ :=
  ((txns.filter (fun t => t.transaction_type == "dividend")).map
    (fun t => t.credit)).sum

/-- Spec-side per-record cost (spec §4.2): the stored debit for a record
whose debit is present and positive, `price_per_unit × quantity` for a
record whose debit is absent or non-positive. -/
def spec_per_record_cost (p : TransactionDoc) : ℚ :=
  match p.debit with
  | some d => if 0 < d then d else p.price_per_unit * p.quantity
  | none => p.price_per_unit * p.quantity

/-! ## Python string helpers

String normalization used by the code (`.upper()`, `.strip()`), modelled
over the character list of the string; ASCII semantics, which covers the
ticker symbols and exchange codes the code handles. -/

/-- Whitespace as Python `.strip()` removes it (ASCII portion). -/
def isPyWs (c : Char) : Bool :=
  c == ' ' || c == '\t' || c == '\n' || c == '\r'

/-- Python `s.strip()`: drop whitespace from both ends. -/
def pyStrip (s : String) : String :=
  String.mk (((s.data.dropWhile isPyWs).reverse.dropWhile isPyWs).reverse)

/-- Python `s.upper()` (ASCII). -/
def pyUpper (s : String) : String :=
  String.mk (s.data.map Char.toUpper)

/-! ## Quote service (`backend/services/stock_service.py`) -/

/-- The quote dict built by `get_stock_info`, restricted to the fields the
claims speak about (the company-details fields of the `.info` block are
carried opaquely by `name`/`sector` here). -/
structure Quote where
  symbol : String
  name : String
  exchange : String
  currency : String
  current_price : ℚ
  previous_close : ℚ
  change_amount : ℚ
  change_percent : ℚ
  day_high : ℚ
  day_low : ℚ
  market_cap : ℚ
  sector : String
  success : Bool
  error : Option String
deriving DecidableEq, Repr

/-- `EXCHANGE_MAP` (stock_service.py:13-24). -/
def EXCHANGE_MAP : List (String × String) :=
  [("NMS", "NASDAQ"), ("NGM", "NASDAQ"), ("NCM", "NASDAQ"),
   ("NYQ", "NYSE"), ("NYS", "NYSE"), ("PCX", "NYSE ARCA"),
   ("BTS", "BATS"), ("ASE", "NYSE American"), ("LSE", "London"),
   ("TYO", "Tokyo")]

/-- `_friendly_exchange`: map an exchange code, unknown codes pass through. -/
def friendly_exchange (code : String) : String :=
  (EXCHANGE_MAP.lookup code).getD code

/-- What a successful external fetch yields, after the `or`-fallbacks of
stock_service.py:51-61 collapsed absent numerics to 0 and after the inner
`.info` try/except resolved `name`/`sector`. -/
structure RawFetch where
  lastPrice : ℚ
  previousClose : ℚ
  exchange : String
  currency : String
  dayHigh : ℚ
  dayLow : ℚ
  marketCap : ℚ
  name : String
  sector : String
deriving DecidableEq, Repr

/-- The external market-data source: returns raw data or raises. -/
inductive FetchOutcome where
  | ok (r : RawFetch)
  | err (e : String)
deriving DecidableEq, Repr

/-- The `data` dict built on the success path (stock_service.py:63-152). -/
def buildQuote (sym : String) (r : RawFetch) : Quote :=
  let change_amount :=
    if r.previousClose ≠ 0 ∧ r.lastPrice ≠ 0 then r.lastPrice - r.previousClose else 0
  let change_percent :=
    if r.previousClose ≠ 0 ∧ r.lastPrice ≠ 0
    then (r.lastPrice - r.previousClose) / r.previousClose * 100 else 0
  { symbol := sym
    name := r.name
    exchange := friendly_exchange r.exchange
    currency := r.currency
    current_price := round2 r.lastPrice
    previous_close := round2 r.previousClose
    change_amount := round2 change_amount
    change_percent := round2 change_percent
    day_high := round2 r.dayHigh
    day_low := round2 r.dayLow
    market_cap := r.marketCap
    sector := r.sector
    success := true
    error := none }

/-- The zero-quote returned on the exception path (stock_service.py:159-200). -/
def zeroQuote (sym : String) (e : String) : Quote :=
  { symbol := sym
    name := sym
    exchange := "N/A"
    currency := "USD"
    current_price := 0
    previous_close := 0
    change_amount := 0
    change_percent := 0
    day_high := 0
    day_low := 0
    market_cap := 0
    sector := "N/A"
    success := false
    error := some e }

/-- One `_cache` entry: `{"data": ..., "timestamp": ...}`. -/
structure CacheEntry where
  data : Quote
  timestamp : ℚ
deriving DecidableEq, Repr

/-- The module-level `_cache` dict, keyed by normalized symbol. -/
def Cache := List (String × CacheEntry)

instance : DecidableEq Cache := inferInstanceAs (DecidableEq (List (String × CacheEntry)))

/-- Python dict read `_cache.get(symbol)`. -/
def cacheGet (c : Cache) (k : String) : Option CacheEntry :=
  List.lookup k c

/-- Python dict write `_cache[symbol] = v`: the new binding shadows and
replaces any prior entry for the key; other keys are untouched. -/
def cacheSet (c : Cache) (k : String) (v : CacheEntry) : Cache :=
  (k, v) :: (List.filter (fun kv => !(kv.1 == k)) c)

/-- `CACHE_TTL_SECONDS = 300`. -/
def CACHE_TTL_SECONDS : ℚ := 300

/-- `symbol.upper().strip()` (stock_service.py:38). -/
def normSymbol (symbol : String) : String := pyStrip (pyUpper symbol)

/-- `get_stock_info` (stock_service.py:32-200) with the ambient state made
explicit: `fetch` is the external source, `now` the clock, `cache` the
module cache. Returns the quote together with the cache after the call. -/
def get_stock_info (fetch : String → FetchOutcome) (now : ℚ) (cache : Cache)
    (symbol : String) : Quote × Cache :=
  let sym := normSymbol symbol
  let fresh :=
    match cacheGet cache sym with
    | some entry =>
      if now - entry.timestamp < CACHE_TTL_SECONDS then some entry.data else none
    | none => none
  match fresh with
  | some d => (d, cache)
  | none =>
    match fetch sym with
    | .ok r =>
      let data := buildQuote sym r
      (data, cacheSet cache sym ⟨data, now⟩)
    | .err e => (zeroQuote sym e, cache)

/-! ## Transaction creation (`create_transaction`, api.py:118-186) -/

/-- A transaction document as `create_transaction` stores it. -/
structure StoredTxn where
  transaction_type : String
  price_per_unit : ℚ
  quantity : ℚ
  fees : ℚ
  debit : ℚ
  credit : ℚ
deriving DecidableEq, Repr

/-- The validation and field computation of `create_transaction`
(api.py:134-181), after authentication and asset-ownership checks:
`none` models the 400 error responses, `some` the stored document. -/
def create_transaction_doc (transaction_type : String)
    (price_per_unit quantity fees credit : ℚ) : Option StoredTxn :=
  if transaction_type ≠ "purchase" ∧ transaction_type ≠ "dividend" then none
  else if transaction_type = "purchase" then
    if price_per_unit ≤ 0 ∨ quantity ≤ 0 then none
    else some
      { transaction_type := "purchase"
        price_per_unit := price_per_unit
        quantity := quantity
        fees := fees
        debit := round2 (price_per_unit * quantity + fees)
        credit := 0 }
  else
    if credit ≤ 0 then none
    else some
      { transaction_type := "dividend"
        price_per_unit := 0
        quantity := 0
        fees := 0
        debit := 0
        credit := credit }

/-! ## Portfolio rollup (`dashboard_page`, page_routes.py:156-159) -/

/-- The per-asset fields the dashboard rollup reads. -/
structure AssetRow where
  total_paid : ℚ
  total_value : ℚ
deriving DecidableEq, Repr

/-- The portfolio totals computed by `dashboard_page`. -/
structure PortfolioTotals where
  invested : ℚ
  value : ℚ
  profit : ℚ
  is_gain : Bool
deriving DecidableEq, Repr

/-- `portfolio_invested/value/profit/is_gain` (page_routes.py:156-159). -/
def dashboard_rollup (assets : List AssetRow) : PortfolioTotals :=
  let invested := (assets.map (fun a => a.total_paid)).sum
  let value := (assets.map (fun a => a.total_value)).sum
  let profit := value - invested
  { invested := invested, value := value, profit := profit
    is_gain := decide (0 ≤ profit) }

/-! ## Charting display symbol (`_load_asset_context`, page_routes.py:239-242) -/

/-- The TradingView display symbol: `f"{exchange}:{symbol}" if exchange and
symbol else symbol or "NASDAQ:AAPL"`, with exchange normalized by
`.strip().upper()` and symbol by `.strip()`, absent fields read via
`or ""`. -/
def tv_symbol (asset_exchange asset_symbol : Option String) : String :=
  let exchange := pyUpper (pyStrip (asset_exchange.getD ""))
  let symbol := pyStrip (asset_symbol.getD "")
  if exchange ≠ "" ∧ symbol ≠ "" then exchange ++ ":" ++ symbol
  else if symbol ≠ "" then symbol
  else "NASDAQ:AAPL"

/-! ## Concrete sample data used in counterexamples and witnesses -/

/-- A dividend transaction with `credit = 50`, as `create_transaction`
stores it (purchase-only numeric fields zeroed, `debit` stored as 0). -/
def divTxn50 : TransactionDoc :=
  { transaction_type := "dividend", price_per_unit := 0, quantity := 0,
    fees := 0, debit := some 0, credit := 50, purchase_date := .pyNone }

/-- A successful cached quote used to exercise the cache paths. -/
def sampleQuote : Quote :=
  { symbol := "AAPL", name := "Apple Inc.", exchange := "NASDAQ",
    currency := "USD", current_price := 123, previous_close := 120,
    change_amount := 3, change_percent := 5/2, day_high := 124,
    day_low := 119, market_cap := 1000, sector := "Technology",
    success := true, error := none }

/-! ## Helper lemmas -/

/-- Filtering for purchases drops a transaction whose type is dividend. -/
lemma purchase_docs_cons_dividend (t : TransactionDoc)
    (txns : List TransactionDoc) (h : t.transaction_type = "dividend") :
    purchase_docs (t :: txns) = purchase_docs txns := by
  have hb : (t.transaction_type == "purchase") = false := by
    rw [h]; decide
  simp [purchase_docs, List.filter, hb]

/-- A `cacheSet` write is visible to the next `cacheGet` of the same key. -/
lemma cacheGet_cacheSet_self (c : Cache) (k : String) (v : CacheEntry) :
    cacheGet (cacheSet c k v) k = some v := by
  simp [cacheGet, cacheSet, List.lookup]

/-! ## Claims -/

/-- C1 counterexample: the dashboard computes per-asset total profit as
current value minus total paid, with no dividend term. For an asset whose
transactions are a single dividend with credit 50 and no purchases, the
code yields total_profit 0, while current value minus total paid plus
total dividends is 50, so the claimed identity fails. -/
theorem C1_profit_with_dividends_counterexample :
    (asset_dict_for_dashboard2 [divTxn50] 0 0).total_profit = 0 ∧
    (asset_dict_for_dashboard2 [divTxn50] 0 0).total_value
      - (asset_dict_for_dashboard2 [divTxn50] 0 0).total_paid
      + spec_total_dividends [divTxn50] = 50 ∧
    (asset_dict_for_dashboard2 [divTxn50] 0 0).total_profit ≠
      (asset_dict_for_dashboard2 [divTxn50] 0 0).total_value
      - (asset_dict_for_dashboard2 [divTxn50] 0 0).total_paid
      + spec_total_dividends [divTxn50] := by
  have hpd : purchase_docs [divTxn50] = [] := by
    simp [purchase_docs, List.filter, divTxn50]
  simp only [asset_dict_for_dashboard2, total_profit_of, total_value_of,
    total_paid_of, total_units_of, hpd, List.map_nil, List.sum_nil,
    compute_profit_periods, collectDates, List.filterMap_nil]
  norm_num [round2, rhe, spec_total_dividends, divTxn50, List.filter]

/-- C1 amended: for every asset, the per-asset total profit equals current
value minus total paid; dividend transactions contribute nothing to any
dashboard metric. For an asset whose transactions are a single dividend
with credit 50 and no purchases, the valuation has total_units 0,
current_value 0, total_profit 0 and is_gain true. -/
theorem C1_profit_amended :
    (∀ (txns : List TransactionDoc) (price : ℚ),
        total_profit_of txns price =
          total_value_of txns price - total_paid_of txns) ∧
    (∀ (t : TransactionDoc) (txns : List TransactionDoc) (price : ℚ) (today : ℤ),
        t.transaction_type = "dividend" →
        asset_dict_for_dashboard2 (t :: txns) price today =
          asset_dict_for_dashboard2 txns price today) ∧
    ((asset_dict_for_dashboard2 [divTxn50] 0 0).total_units = 0 ∧
     (asset_dict_for_dashboard2 [divTxn50] 0 0).total_value = 0 ∧
     (asset_dict_for_dashboard2 [divTxn50] 0 0).total_profit = 0 ∧
     (asset_dict_for_dashboard2 [divTxn50] 0 0).is_gain = true) := by
  refine ⟨fun txns price => rfl, fun t txns price today h => ?_, ?_⟩
  · simp only [asset_dict_for_dashboard2, total_profit_of, total_value_of,
      total_paid_of, total_units_of, purchase_docs_cons_dividend t txns h]
  · have hpd : purchase_docs [divTxn50] = [] := by
      simp [purchase_docs, List.filter, divTxn50]
    simp only [asset_dict_for_dashboard2, total_profit_of, total_value_of,
      total_paid_of, total_units_of, hpd, List.map_nil, List.sum_nil]
    norm_num [round2, rhe]

/-- C1 witness: the amended theorem applied to the dividend-only asset. -/
theorem C1_profit_amended_witness :
    asset_dict_for_dashboard2 [divTxn50] 0 0 = asset_dict_for_dashboard2 [] 0 0 :=
  C1_profit_amended.2.1 divTxn50 [] 0 0 rfl

/-- C2 counterexample: with a cached successful quote whose entry has
expired (timestamp 0, now 1000, TTL 300), a failing fetch makes
get_stock_info return the zero-quote, not the previously cached quote. -/
theorem C2_stale_failure_counterexample :
    (get_stock_info (fun _ => FetchOutcome.err "boom") 1000
        [("AAPL", ⟨sampleQuote, 0⟩)] "AAPL").1 ≠ sampleQuote ∧
    (get_stock_info (fun _ => FetchOutcome.err "boom") 1000
        [("AAPL", ⟨sampleQuote, 0⟩)] "AAPL").1 = zeroQuote "AAPL" "boom" := by
  have hn : normSymbol "AAPL" = "AAPL" := by decide
  have hmain :
      (get_stock_info (fun _ => FetchOutcome.err "boom") 1000
        [("AAPL", ⟨sampleQuote, 0⟩)] "AAPL").1 = zeroQuote "AAPL" "boom" := by
    simp only [get_stock_info, hn, cacheGet, List.lookup, beq_self_eq_true, if_true]
    norm_num [CACHE_TTL_SECONDS]
  refine ⟨?_, hmain⟩
  rw [hmain]
  intro h
  have := congrArg Quote.success h
  simp [zeroQuote, sampleQuote] at this

/-- C2 amended: when the cache entry for a symbol has expired and the
external fetch then fails, get_stock_info returns the zero-quote (never
the previously cached quote); the expired cached entry itself is retained
unchanged in the cache. -/
theorem C2_stale_failure_amended (fetch : String → FetchOutcome) (now : ℚ)
    (cache : Cache) (symbol e : String) (entry : CacheEntry)
    (hc : cacheGet cache (normSymbol symbol) = some entry)
    (hstale : ¬(now - entry.timestamp < CACHE_TTL_SECONDS))
    (hf : fetch (normSymbol symbol) = .err e) :
    (get_stock_info fetch now cache symbol).1 = zeroQuote (normSymbol symbol) e ∧
    (get_stock_info fetch now cache symbol).2 = cache ∧
    cacheGet (get_stock_info fetch now cache symbol).2 (normSymbol symbol) =
      some entry := by
  have hmain : get_stock_info fetch now cache symbol =
      (zeroQuote (normSymbol symbol) e, cache) := by
    unfold get_stock_info
    simp [hc, hstale, hf]
  rw [hmain]
  exact ⟨rfl, rfl, hc⟩

/-- C2 witness: the amended theorem at a concrete expired entry. -/
theorem C2_stale_failure_witness :
    (get_stock_info (fun _ => FetchOutcome.err "down") 400
        [("AAPL", ⟨sampleQuote, 0⟩)] "AAPL").1 = zeroQuote "AAPL" "down" := by
  have hn : normSymbol "AAPL" = "AAPL" := by decide
  have h := C2_stale_failure_amended (fun _ => FetchOutcome.err "down") 400
    [("AAPL", ⟨sampleQuote, 0⟩)] "AAPL" "down" ⟨sampleQuote, 0⟩
    (by rw [hn]; simp [cacheGet, List.lookup])
    (by norm_num [CACHE_TTL_SECONDS])
    (by rw [hn])
  rw [h.1, hn]

/-- C3: when the external fetch raises (and no fresh cache entry
short-circuits the call), get_stock_info returns the zero-quote: all
numeric fields 0, success false, name equal to the normalized symbol,
exchange "N/A", currency "USD", and the error description; the cache is
left entirely unchanged, so any previously cached entry survives. -/
theorem C3_zero_quote_on_failure (fetch : String → FetchOutcome) (now : ℚ)
    (cache : Cache) (symbol e : String)
    (hstale : ∀ entry, cacheGet cache (normSymbol symbol) = some entry →
        ¬(now - entry.timestamp < CACHE_TTL_SECONDS))
    (hf : fetch (normSymbol symbol) = .err e) :
    (get_stock_info fetch now cache symbol).1.current_price = 0 ∧
    (get_stock_info fetch now cache symbol).1.previous_close = 0 ∧
    (get_stock_info fetch now cache symbol).1.change_amount = 0 ∧
    (get_stock_info fetch now cache symbol).1.change_percent = 0 ∧
    (get_stock_info fetch now cache symbol).1.day_high = 0 ∧
    (get_stock_info fetch now cache symbol).1.day_low = 0 ∧
    (get_stock_info fetch now cache symbol).1.market_cap = 0 ∧
    (get_stock_info fetch now cache symbol).1.success = false ∧
    (get_stock_info fetch now cache symbol).1.name = normSymbol symbol ∧
    (get_stock_info fetch now cache symbol).1.exchange = "N/A" ∧
    (get_stock_info fetch now cache symbol).1.currency = "USD" ∧
    (get_stock_info fetch now cache symbol).1.error = some e ∧
    (get_stock_info fetch now cache symbol).2 = cache := by
  have hmain : get_stock_info fetch now cache symbol =
      (zeroQuote (normSymbol symbol) e, cache) := by
    unfold get_stock_info
    cases hc : cacheGet cache (normSymbol symbol) with
    | none => simp [hc, hf]
    | some entry =>
      have := hstale entry hc
      simp [hc, this, hf]
  rw [hmain]
  simp [zeroQuote]

/-- C3 witness: a failing fetch for "zzzz" against an empty cache. -/
theorem C3_zero_quote_witness :
    (get_stock_info (fun _ => FetchOutcome.err "down") 0 [] "zzzz").1.success
        = false ∧
    (get_stock_info (fun _ => FetchOutcome.err "down") 0 [] "zzzz").1.current_price
        = 0 ∧
    (get_stock_info (fun _ => FetchOutcome.err "down") 0 [] "zzzz").1.name
        = normSymbol "zzzz" := by
  have h := C3_zero_quote_on_failure (fun _ => FetchOutcome.err "down") 0 [] "zzzz"
    "down" (by intro entry he; simp [cacheGet] at he) rfl
  exact ⟨h.2.2.2.2.2.2.2.1, h.1, h.2.2.2.2.2.2.2.2.1⟩

/-- C4: a cache entry younger than 300 seconds is returned unchanged with
no external fetch (the result does not depend on the fetch function and
the cache is unmodified); otherwise a fresh fetch is attempted, and on
success the quote built from it is stored under the normalized symbol
with timestamp now, replacing any prior entry, and returned. -/
theorem C4_cache_ttl (fetch fetch2 : String → FetchOutcome) (now : ℚ)
    (cache : Cache) (symbol : String) :
    (∀ entry, cacheGet cache (normSymbol symbol) = some entry →
        now - entry.timestamp < CACHE_TTL_SECONDS →
        get_stock_info fetch now cache symbol = (entry.data, cache) ∧
        get_stock_info fetch now cache symbol =
          get_stock_info fetch2 now cache symbol) ∧
    (∀ r, (∀ entry, cacheGet cache (normSymbol symbol) = some entry →
            ¬(now - entry.timestamp < CACHE_TTL_SECONDS)) →
        fetch (normSymbol symbol) = .ok r →
        get_stock_info fetch now cache symbol =
          (buildQuote (normSymbol symbol) r,
           cacheSet cache (normSymbol symbol)
             ⟨buildQuote (normSymbol symbol) r, now⟩) ∧
        cacheGet (get_stock_info fetch now cache symbol).2 (normSymbol symbol) =
          some ⟨buildQuote (normSymbol symbol) r, now⟩) := by
  constructor
  · intro entry hc hfresh
    constructor
    · unfold get_stock_info
      simp [hc, hfresh]
    · unfold get_stock_info
      simp [hc, hfresh]
  · intro r hstale hf
    have hmain : get_stock_info fetch now cache symbol =
        (buildQuote (normSymbol symbol) r,
         cacheSet cache (normSymbol symbol)
           ⟨buildQuote (normSymbol symbol) r, now⟩) := by
      unfold get_stock_info
      cases hc : cacheGet cache (normSymbol symbol) with
      | none => simp [hc, hf]
      | some entry =>
        have := hstale entry hc
        simp [hc, this, hf]
    refine ⟨hmain, ?_⟩
    rw [hmain]
    exact cacheGet_cacheSet_self cache (normSymbol symbol) _

/-- C4 witness: a fresh entry (age 100 < 300) is served from the cache. -/
theorem C4_cache_ttl_witness :
    get_stock_info (fun _ => FetchOutcome.err "x") 100
        [("AAPL", ⟨sampleQuote, 0⟩)] "AAPL" =
      (sampleQuote, [("AAPL", ⟨sampleQuote, 0⟩)]) := by
  have hn : normSymbol "AAPL" = "AAPL" := by decide
  exact ((C4_cache_ttl (fun _ => FetchOutcome.err "x") (fun _ => FetchOutcome.err "y")
    100 [("AAPL", ⟨sampleQuote, 0⟩)] "AAPL").1 ⟨sampleQuote, 0⟩
    (by rw [hn]; simp [cacheGet, List.lookup])
    (by norm_num [CACHE_TTL_SECONDS])).1

/-- C5: total_paid is the sum, over the purchase records, of the stored
debit for each record whose debit is present and positive and of
price_per_unit times quantity for each record whose debit is absent or
non-positive; when every debit is positive and stored, total_paid is the
plain sum of the debits. -/
theorem C5_total_paid (txns : List TransactionDoc) :
    (total_paid_of txns = ((purchase_docs txns).map spec_per_record_cost).sum) ∧
    ((∀ p, p ∈ purchase_docs txns → ∃ d : ℚ, p.debit = some d ∧ 0 < d) →
      total_paid_of txns =
        ((purchase_docs txns).map (fun p => p.debit.getD 0)).sum) := by
  constructor
  · rfl
  · intro h
    unfold total_paid_of
    congr 1
    refine List.map_congr_left fun p hp => ?_
    obtain ⟨d, hd, hpos⟩ := h p hp
    simp [purchase_total_cost, hd, hpos]

/-- C5 witness: a single purchase with stored positive debit 1005. -/
theorem C5_total_paid_witness :
    total_paid_of [⟨"purchase", 100, 10, 5, some 1005, 0, .pyNone⟩] =
      (([⟨"purchase", 100, 10, 5, some 1005, 0, .pyNone⟩] :
          List TransactionDoc).map (fun p => p.debit.getD 0)).sum := by
  have h := (C5_total_paid [⟨"purchase", 100, 10, 5, some 1005, 0, .pyNone⟩]).2
  refine (h ?_).trans ?_
  · intro p hp
    simp [purchase_docs, List.filter] at hp
    exact ⟨1005, by rw [hp], by norm_num⟩
  · simp [purchase_docs, List.filter]

/-- C6: the annualized figures are none exactly when no purchase date was
collected or the holding period (today minus the earliest collected date)
is below one day; otherwise profit_per_month is total_profit divided by
holding_days over 30.44 and profit_per_year is profit_per_month times 12,
each rounded to two decimals. -/
theorem C6_annualization (ps : List TransactionDoc) (P : ℚ) (today : ℤ) :
    (collectDates ps = [] → compute_profit_periods ps P today = none) ∧
    (∀ d ds, collectDates ps = d :: ds →
      ((today - List.foldl min d ds < 1 →
          compute_profit_periods ps P today = none) ∧
       (1 ≤ today - List.foldl min d ds →
          compute_profit_periods ps P today =
            some (round2 (P / (((today - List.foldl min d ds : ℤ) : ℚ) / (3044/100))),
                  round2 (round2
                    (P / (((today - List.foldl min d ds : ℤ) : ℚ) / (3044/100)))
                    * 12))))) := by
  constructor
  · intro h
    simp [compute_profit_periods, h]
  · intro d ds h
    constructor
    · intro h2
      simp [compute_profit_periods, h, h2]
    · intro h2
      simp only [compute_profit_periods, h]
      rw [if_neg (by omega)]

/-- C6 witness: one purchase dated at day 0 evaluated 31 days later. -/
theorem C6_annualization_witness :
    compute_profit_periods [⟨"purchase", 1, 1, 0, some 1, 0, .pyDate 0⟩] 100 31 =
      some (round2 (100 / (((31 - List.foldl min 0 [] : ℤ) : ℚ) / (3044/100))),
            round2 (round2
              (100 / (((31 - List.foldl min 0 [] : ℤ) : ℚ) / (3044/100))) * 12)) :=
  ((C6_annualization [⟨"purchase", 1, 1, 0, some 1, 0, .pyDate 0⟩] 100 31).2 0 []
    (by decide)).2 (by decide)

/-- C7 counterexample: with an absent or empty exchange the charting
symbol is the bare ticker, not NASDAQ-prefixed; an exchange stored as
"N/A" is used verbatim rather than replaced by NASDAQ. -/
theorem C7_tv_symbol_counterexample :
    tv_symbol (some "") (some "AAPL") = "AAPL" ∧
    "AAPL" ≠ "NASDAQ:AAPL" ∧
    tv_symbol (some "N/A") (some "AAPL") = "N/A:AAPL" ∧
    "N/A:AAPL" ≠ "NASDAQ:AAPL" := by decide

/-- C7 amended: the display symbol is EXCHANGE colon SYMBOL with the
stored exchange uppercased (including a literal "N/A") whenever both
normalized fields are nonempty; with an empty exchange it is the bare
symbol; with an empty symbol it is the fixed fallback "NASDAQ:AAPL". No
defaulting of the exchange to NASDAQ takes place. -/
theorem C7_tv_symbol_amended (e s : Option String) :
    (pyUpper (pyStrip (e.getD "")) ≠ "" → pyStrip (s.getD "") ≠ "" →
      tv_symbol e s =
        pyUpper (pyStrip (e.getD "")) ++ ":" ++ pyStrip (s.getD "")) ∧
    (pyUpper (pyStrip (e.getD "")) = "" → pyStrip (s.getD "") ≠ "" →
      tv_symbol e s = pyStrip (s.getD "")) ∧
    (pyStrip (s.getD "") = "" → tv_symbol e s = "NASDAQ:AAPL") := by
  refine ⟨fun he hs => ?_, fun he hs => ?_, fun hs => ?_⟩
  · simp [tv_symbol, he, hs]
  · simp [tv_symbol, he, hs]
  · simp [tv_symbol, hs]

/-- C7 witness: a lowercase padded exchange is normalized and prefixed. -/
theorem C7_tv_symbol_witness :
    tv_symbol (some " nasdaq") (some "TSLA") = "NASDAQ:TSLA" :=
  ((C7_tv_symbol_amended (some " nasdaq") (some "TSLA")).1
    (by decide) (by decide)).trans (by decide)

/-- C8: the portfolio totals are the plain sums of the per-asset
total_paid and total_value, they are invariant under permutation of the
assets, and is_gain holds exactly when the portfolio profit is
non-negative. -/
theorem C8_rollup (l l2 : List AssetRow) (h : l.Perm l2) :
    dashboard_rollup l = dashboard_rollup l2 ∧
    (dashboard_rollup l).invested = (l.map (fun a => a.total_paid)).sum ∧
    (dashboard_rollup l).value = (l.map (fun a => a.total_value)).sum ∧
    ((dashboard_rollup l).is_gain = true ↔ 0 ≤ (dashboard_rollup l).profit) := by
  refine ⟨?_, rfl, rfl, ?_⟩
  · have h1 : (l.map (fun a => a.total_paid)).sum =
        (l2.map (fun a => a.total_paid)).sum := (h.map _).sum_eq
    have h2 : (l.map (fun a => a.total_value)).sum =
        (l2.map (fun a => a.total_value)).sum := (h.map _).sum_eq
    simp [dashboard_rollup, h1, h2]
  · simp [dashboard_rollup]

/-- C8 witness: swapping two assets leaves the rollup unchanged. -/
theorem C8_rollup_witness :
    dashboard_rollup [⟨1, 2⟩, ⟨3, 4⟩] = dashboard_rollup [⟨3, 4⟩, ⟨1, 2⟩] :=
  (C8_rollup [⟨1, 2⟩, ⟨3, 4⟩] [⟨3, 4⟩, ⟨1, 2⟩] (List.Perm.swap _ _ _)).1

/-- C9: a purchase with positive price and quantity is accepted for every
fees value, negative included, and stored with debit equal to
price_per_unit times quantity plus fees rounded to two decimals and
credit 0; with fees -2 on a 10 by 1 purchase the stored debit 8 is
smaller than price times quantity. -/
theorem C9_create_purchase (price_per_unit quantity fees credit : ℚ)
    (hp : 0 < price_per_unit) (hq : 0 < quantity) :
    create_transaction_doc "purchase" price_per_unit quantity fees credit =
      some { transaction_type := "purchase", price_per_unit := price_per_unit,
             quantity := quantity, fees := fees,
             debit := round2 (price_per_unit * quantity + fees), credit := 0 } ∧
    (create_transaction_doc "purchase" 10 1 (-2) 0 =
      some { transaction_type := "purchase", price_per_unit := 10, quantity := 1,
             fees := -2, debit := 8, credit := 0 } ∧
     (8 : ℚ) < 10 * 1) := by
  constructor
  · simp [create_transaction_doc, not_le.mpr hp, not_le.mpr hq]
  · constructor
    · simp only [create_transaction_doc]
      norm_num [round2, rhe]
    · norm_num

/-- C9 witness: the purchase with negative fees is stored as computed. -/
theorem C9_create_purchase_witness :
    create_transaction_doc "purchase" 10 1 (-2) 0 =
      some { transaction_type := "purchase", price_per_unit := 10, quantity := 1,
             fees := -2, debit := round2 (10 * 1 + (-2)), credit := 0 } :=
  (C9_create_purchase 10 1 (-2) 0 (by norm_num) (by norm_num)).1

/-- C10: a purchase whose date is absent, an unparseable string, or some
other unusable value contributes nothing to annualization, and when no
purchase has a usable date the result is none for every total profit. -/
theorem C10_date_total :
    (∀ (p : TransactionDoc) (ps : List TransactionDoc) (P : ℚ) (today : ℤ),
        dateOf p.purchase_date = none →
        compute_profit_periods (p :: ps) P today =
          compute_profit_periods ps P today) ∧
    (∀ (ps : List TransactionDoc) (P : ℚ) (today : ℤ),
        (∀ p, p ∈ ps → dateOf p.purchase_date = none) →
        compute_profit_periods ps P today = none) := by
  constructor
  · intro p ps P today h
    simp [compute_profit_periods, collectDates, List.filterMap_cons, h]
  · intro ps P today h
    have hc : collectDates ps = [] := by
      simp only [collectDates, List.filterMap_eq_nil_iff]
      exact h
    simp [compute_profit_periods, hc]

/-- C10 witness: purchases with an unparseable date string and an absent
date yield none despite a nonzero total profit. -/
theorem C10_date_total_witness :
    compute_profit_periods
      [⟨"purchase", 1, 1, 0, some 1, 100, .pyStr none⟩,
       ⟨"purchase", 1, 1, 0, some 1, 100, .pyNone⟩] 100 31 = none :=
  C10_date_total.2 _ 100 31 (by decide)

end TrainingCur
